import Mathlib

/-!
Shallow embedding of `src/main.py` (Chip-tune Hex Dump Generator): the `Song`
class with its constructor (from a bpm or from a hex byte string), the voice
mutators `push_segment` / `insert_segment` / `remove_segment`, and the encoder
`hex_dump`.

Modelling conventions, chosen to follow the Python source line by line:

* A Python hex string is modelled as the list of its hex-digit values
  (`List Nat`, one entry per character, each in `0..15`).  `int(sub, 16)` on a
  nonempty digit substring is `hexVal`; on the empty string it raises
  `ValueError`, modelled as `.error .parseError`.
* Python integers are `Int`.  The exceptions the source can raise are the
  constructors of `Err`, split by the raise site: `.invalidArgument` for the
  constructor-source conflict and the argument checks in `push_segment` /
  `insert_segment`; `.invalidFormat` for `ValueError("Invalid byte_string
  argument")`; `.indexError` for Python `IndexError` (out-of-range list index
  in `remove_segment`, and `self._voices[2]` during decoding);
  `.overflowError` for `int.to_bytes()` on a value outside one byte.
* `math.remainder(n, 18) != 0` for a natural `n` holds exactly when
  `n % 18 ≠ 0` (the IEEE remainder of integers vanishes exactly on multiples).
* `int.to_bytes()` (no arguments) produces one big-endian byte, raising
  `OverflowError` outside `0..255`; `.hex()` of that byte is its two hex
  digits, modelled by `toBytesHex`.
* Console printing (the `print_color` output of `print_song` and `hex_dump`)
  has no effect on the data and is omitted; `hex_dump` is modelled as the hex
  digit string it accumulates (the returned `bytearray.fromhex` value is that
  string read back two digits per byte).
-/

/-- Exception kinds raised by the source, split by raise site (see the header
comment of this file). -/
inductive Err where
  | invalidArgument
  | invalidFormat
  | indexError
  | parseError
  | overflowError

deriving instance DecidableEq, Repr for Err

/-- One stored voice element `[tone_val, beat_val, instrument_val]`. -/
abbrev Elem := Int × Int × Int

/-- The `Song` class state: `self._bpm` and the two lists in `self._voices`. -/
structure Song where
  bpm : Int
  voice1 : List Elem
  voice2 : List Elem

deriving instance DecidableEq, Repr for Song

/-- Value of a nonempty list of hex digits, as Python `int(s, 16)`. -/
def hexVal (ds : List Nat) : Nat :=
  ds.foldl (fun a d => a * 16 + d) 0

/-- Python hexSlice `s[start:][:len]`. -/
def hexSlice (s : List Nat) (start len : Nat) : List Nat :=
  (s.drop start).take len

/-- Python `int(s, 16)`: raises `ValueError` on the empty string. -/
def parseHex (ds : List Nat) : Except Err Nat :=
  if ds = [] then .error .parseError else .ok (hexVal ds)

/-- The three fields the decoder reads for loop indices `(i, j)`:
`tone_val` from 2 hex digits at `2 + j*4 + i*18`, `beat_val` from 3 hex digits
at `3 + j*4 + i*18`, `instrument_val` from 4 hex digits at `4 + j*4 + i*18`
(`SEGMENT_STR_LEN = 18`, offsets exactly as in `Song.__init__`). -/
def decodeElem (s : List Nat) (i j : Nat) : Elem :=
  ((hexVal (hexSlice s (2 + j * 4 + i * 18) 2) : Int),
   (hexVal (hexSlice s (3 + j * 4 + i * 18) 3) : Int),
   (hexVal (hexSlice s (4 + j * 4 + i * 18) 4) : Int))

/-- Body of the inner decoding loop for indices `(i, j)`: skip when
`beat_val == 0`, otherwise `self._voices[j].append(...)` — which is an
`IndexError` when `j = 2`, since `self._voices` has two entries. -/
def decodeCell (s : List Nat) (acc : List Elem × List Elem) (i j : Nat) :
    Except Err (List Elem × List Elem) :=
  let el := decodeElem s i j
  if el.2.1 = 0 then .ok acc
  else if j = 0 then .ok (acc.1 ++ [el], acc.2)
  else if j = 1 then .ok (acc.1, acc.2 ++ [el])
  else .error .indexError

/-- One iteration of the outer decoding loop: `for j in range(NUM_ELEMENTS)`
with `NUM_ELEMENTS = 3`. -/
def decodeStep (s : List Nat) (acc : List Elem × List Elem) (i : Nat) :
    Except Err (List Elem × List Elem) :=
  match decodeCell s acc i 0 with
  | .error e => .error e
  | .ok a1 =>
    match decodeCell s a1 i 1 with
    | .error e => .error e
    | .ok a2 => decodeCell s a2 i 2

/-- The outer decoding loop over the segment indices. -/
def decodeGo (s : List Nat) : List Nat → List Elem × List Elem →
    Except Err (List Elem × List Elem)
  | [], acc => .ok acc
  | i :: rest, acc =>
    match decodeStep s acc i with
    | .error e => .error e
    | .ok a => decodeGo s rest a

/-- The byte-string branch of `Song.__init__`: reject when
`remainder(len(byte_string[2:]), SEGMENT_STR_LEN) != 0` (with
`SEGMENT_STR_LEN = 18` hex digits), else read the bpm from the first two hex
digits and run the decoding loops. -/
def songFromBytes (s : List Nat) : Except Err Song :=
  if (s.drop 2).length % 18 ≠ 0 then .error .invalidFormat
  else
    match parseHex (s.take 2) with
    | .error e => .error e
    | .ok bpm =>
      match decodeGo s (List.range ((s.drop 2).length / 18)) ([], []) with
      | .error e => .error e
      | .ok vs => .ok ⟨(bpm : Int), vs.1, vs.2⟩

/-- `Song.__init__`: exactly one of `bpm` and `byte_string` must be given
(`(bpm == None) ^ (byte_string == None)`), else
`ValueError("Must provide only either bpm or byte_string argument")`. -/
def mkSong : Option Int → Option (List Nat) → Except Err Song
  | some _, some _ => .error .invalidArgument
  | none, none => .error .invalidArgument
  | some b, none => .ok ⟨b, [], []⟩
  | none, some s => songFromBytes s

/-- `self._voices[voice_num - 1].append(e)` for `voice_num` in `{1, 2}`
(reached only after the voice-number range check). -/
def appendToVoice (song : Song) (voiceNum : Int) (e : Elem) : Song :=
  if voiceNum = 1 then { song with voice1 := song.voice1 ++ [e] }
  else { song with voice2 := song.voice2 ++ [e] }

/-- `Song.push_segment(voice_num, note, length, octave, instrument)`:
voice number must be in `range(1, NUM_VOICES + 1)`, length in `0..255`;
a missing octave is rejected for a non-rest note, a supplied octave is
range-checked against `LOWER_OCTAVE = 2 .. UPPER_OCTAVE = 7` (even for rest);
a rest (`TONAL_VAL.REST = 73`) is appended unmodified, any other note is
appended as `note + (octave - LOWER_OCTAVE) * 12`.  No check is made on the
note value itself. -/
def pushSegment (song : Song) (voiceNum note len : Int) (octave : Option Int)
    (instrument : Int) : Except Err Song :=
  if ¬(voiceNum = 1 ∨ voiceNum = 2) then .error .invalidArgument
  else if 255 < len ∨ len < 0 then .error .invalidArgument
  else
    match octave with
    | none =>
      if note ≠ 73 then .error .invalidArgument
      else .ok (appendToVoice song voiceNum (note, len, instrument))
    | some o =>
      if o < 2 ∨ 7 < o then .error .invalidArgument
      else if note = 73 then .ok (appendToVoice song voiceNum (note, len, instrument))
      else .ok (appendToVoice song voiceNum (note + (o - 2) * 12, len, instrument))

/-- Insertion at clamped index, as Python `list.insert`: a negative index
counts from the end (clamped to the front), an index past the end appends. -/
def insertAt {α : Type} : Nat → α → List α → List α
  | 0, x, l => x :: l
  | _ + 1, x, [] => [x]
  | n + 1, x, a :: l => a :: insertAt n x l

/-- Python `l.insert(i, x)` index semantics. -/
def pyInsertIdx {α : Type} (l : List α) (i : Int) (x : α) : List α :=
  if i < 0 then insertAt ((l.length : Int) + i).toNat x l
  else insertAt (min i.toNat l.length) x l

/-- `self._voices[voice_num - 1].insert(seg_num, e)` for `voice_num` in
`{1, 2}`. -/
def insertToVoice (song : Song) (voiceNum segNum : Int) (e : Elem) : Song :=
  if voiceNum = 1 then { song with voice1 := pyInsertIdx song.voice1 segNum e }
  else { song with voice2 := pyInsertIdx song.voice2 segNum e }

/-- `Song.insert_segment(seg_num, voice_num, note, length, octave,
instrument)`: the same validation as `push_segment`, then
`list.insert(seg_num, ...)` instead of `append`. -/
def insertSegment (song : Song) (segNum voiceNum note len : Int)
    (octave : Option Int) (instrument : Int) : Except Err Song :=
  if ¬(voiceNum = 1 ∨ voiceNum = 2) then .error .invalidArgument
  else if 255 < len ∨ len < 0 then .error .invalidArgument
  else
    match octave with
    | none =>
      if note ≠ 73 then .error .invalidArgument
      else .ok (insertToVoice song voiceNum segNum (note, len, instrument))
    | some o =>
      if o < 2 ∨ 7 < o then .error .invalidArgument
      else if note = 73 then .ok (insertToVoice song voiceNum segNum (note, len, instrument))
      else .ok (insertToVoice song voiceNum segNum (note + (o - 2) * 12, len, instrument))

/-- Python `l.pop(i)`: a negative index counts from the end; an index outside
the list raises `IndexError`. -/
def pyPop {α : Type} (l : List α) (i : Int) : Except Err (List α) :=
  if 0 ≤ i ∧ i < (l.length : Int) then .ok (l.eraseIdx i.toNat)
  else if -(l.length : Int) ≤ i ∧ i < 0 then .ok (l.eraseIdx ((l.length : Int) + i).toNat)
  else .error .indexError

/-- `Song.remove_segment(voice_num, seg_num)`: the bare
`self._voices[voice_num - 1].pop(seg_num - 1)` — no explicit range checks, so
both indexings follow Python list semantics (negative indices count from the
end, anything else raises `IndexError`). -/
def removeSegment (song : Song) (voiceNum segNum : Int) : Except Err Song :=
  if voiceNum - 1 = 0 ∨ voiceNum - 1 = -2 then
    match pyPop song.voice1 (segNum - 1) with
    | .error e => .error e
    | .ok v => .ok { song with voice1 := v }
  else if voiceNum - 1 = 1 ∨ voiceNum - 1 = -1 then
    match pyPop song.voice2 (segNum - 1) with
    | .error e => .error e
    | .ok v => .ok { song with voice2 := v }
  else .error .indexError

/-- Python `v.to_bytes().hex()`: the two hex digits of a one-byte value,
`OverflowError` outside `0..255`. -/
def toBytesHex (v : Int) : Except Err (List Nat) :=
  if 0 ≤ v ∧ v ≤ 255 then .ok [v.toNat / 16, v.toNat % 16] else .error .overflowError

/-- Hex digits of one stored element, in field order. -/
def elemHex (e : Elem) : Except Err (List Nat) :=
  match toBytesHex e.1 with
  | .error er => .error er
  | .ok a =>
    match toBytesHex e.2.1 with
    | .error er => .error er
    | .ok b =>
      match toBytesHex e.2.2 with
      | .error er => .error er
      | .ok c => .ok (a ++ b ++ c)

/-- Contribution of one voice to segment `i` of the dump: six `0` digits when
`len(self._voices[j]) - 1 < i`, else the element's hex digits. -/
def voiceContrib (v : List Elem) (i : Nat) : Except Err (List Nat) :=
  match v[i]? with
  | none => .ok [0, 0, 0, 0, 0, 0]
  | some e => elemHex e

/-- The segment loop of `hex_dump`, accumulating the hex digit string. -/
def hexDumpGo (song : Song) : List Nat → List Nat → Except Err (List Nat)
  | [], acc => .ok acc
  | i :: rest, acc =>
    match voiceContrib song.voice1 i with
    | .error e => .error e
    | .ok c1 =>
      match voiceContrib song.voice2 i with
      | .error e => .error e
      | .ok c2 => hexDumpGo song rest (acc ++ c1 ++ c2)

/-- `Song.hex_dump()`: the bpm byte followed by one record per segment index
up to `max(len(self._voices[0]), len(self._voices[1]))`, as hex digits. -/
def hexDump (song : Song) : Except Err (List Nat) :=
  match toBytesHex song.bpm with
  | .error e => .error e
  | .ok b => hexDumpGo song (List.range (max song.voice1.length song.voice2.length)) b

/-- Decoding an encoded song: `Song(byte_string = song.hex_dump().hex())`. -/
def roundTrip (song : Song) : Except Err Song :=
  match hexDump song with
  | .error e => .error e
  | .ok bs => songFromBytes bs

/-- The spec §8 example song: `Song(bpm = 120)` followed by
`push_segment(1, TONAL_VAL.C_SHARP, BEAT.NOTE_4, 4)`. -/
def demoSong : Except Err Song :=
  match mkSong (some 120) none with
  | .error e => .error e
  | .ok s => pushSegment s 1 1 8 (some 4) 0

/-- The voice of `song` named by `voice_num` in `{1, 2}` (statement helper). -/
def voiceOf (song : Song) (voiceNum : Int) : List Elem :=
  if voiceNum = 1 then song.voice1 else song.voice2

/-- Replacing the voice of `song` named by `voice_num` in `{1, 2}` (statement
helper). -/
def setVoice (song : Song) (voiceNum : Int) (v : List Elem) : Song :=
  if voiceNum = 1 then { song with voice1 := v } else { song with voice2 := v }

theorem bpm_appendToVoice (song : Song) (vn : Int) (e : Elem) :
    (appendToVoice song vn e).bpm = song.bpm := by
  unfold appendToVoice; split <;> rfl

theorem voiceOf_appendToVoice (song : Song) (vn : Int) (e : Elem)
    (hv : vn = 1 ∨ vn = 2) :
    voiceOf (appendToVoice song vn e) vn = voiceOf song vn ++ [e] := by
  rcases hv with rfl | rfl <;> simp [voiceOf, appendToVoice]

theorem pushSegment_some_ok (song : Song) (vn note len o instr : Int)
    (hv : vn = 1 ∨ vn = 2) (hl : ¬(255 < len ∨ len < 0))
    (ho : ¬(o < 2 ∨ 7 < o)) (hn : note ≠ 73) :
    pushSegment song vn note len (some o) instr =
      .ok (appendToVoice song vn (note + (o - 2) * 12, len, instr)) := by
  simp only [pushSegment]
  rw [if_neg (not_not_intro hv), if_neg hl, if_neg ho, if_neg hn]

theorem pushSegment_rest_none_ok (song : Song) (vn len instr : Int)
    (hv : vn = 1 ∨ vn = 2) (hl : ¬(255 < len ∨ len < 0)) :
    pushSegment song vn 73 len none instr =
      .ok (appendToVoice song vn (73, len, instr)) := by
  simp only [pushSegment]
  rw [if_neg (not_not_intro hv), if_neg hl, if_neg (not_not_intro rfl)]

theorem pushSegment_rest_some_ok (song : Song) (vn len o instr : Int)
    (hv : vn = 1 ∨ vn = 2) (hl : ¬(255 < len ∨ len < 0))
    (ho : ¬(o < 2 ∨ 7 < o)) :
    pushSegment song vn 73 len (some o) instr =
      .ok (appendToVoice song vn (73, len, instr)) := by
  simp only [pushSegment]
  rw [if_neg (not_not_intro hv), if_neg hl, if_neg ho]
  simp

theorem pushSegment_octave_err (song : Song) (vn note len o instr : Int)
    (hv : vn = 1 ∨ vn = 2) (hl : ¬(255 < len ∨ len < 0))
    (ho : o < 2 ∨ 7 < o) :
    pushSegment song vn note len (some o) instr = .error .invalidArgument := by
  simp only [pushSegment]
  rw [if_neg (not_not_intro hv), if_neg hl, if_pos ho]

/-- Claim C4 counterexample: `push_segment` with note value `100` — neither a
pitch class in `0..11` nor the rest sentinel `73` — and a valid octave
succeeds and appends an element, instead of failing with `InvalidArgument`. -/
theorem c4_counterexample :
    pushSegment ⟨120, [], []⟩ 1 100 8 (some 4) 0 = .ok ⟨120, [(124, 8, 0)], []⟩ := rfl

/-- Claim C4 (amended): `push_segment` performs no validation of the note
value.  A call whose note is not the rest sentinel — whether or not it is a
pitch class in `0..11` — succeeds whenever the voice number, length and octave
pass their checks, and appends `note + (octave - 2) * 12` to the target voice;
no `InvalidArgument` is raised for the note value itself. -/
theorem c4_amended (song : Song) (vn note len o instr : Int)
    (hv : vn = 1 ∨ vn = 2) (hn : note ≠ 73)
    (hl0 : 0 ≤ len) (hl : len ≤ 255) (ho2 : 2 ≤ o) (ho7 : o ≤ 7) :
    ∃ s2, pushSegment song vn note len (some o) instr = .ok s2 ∧
      s2.bpm = song.bpm ∧
      voiceOf s2 vn = voiceOf song vn ++ [(note + (o - 2) * 12, len, instr)] :=
  ⟨appendToVoice song vn (note + (o - 2) * 12, len, instr),
    pushSegment_some_ok song vn note len o instr hv (by omega) (by omega) hn,
    bpm_appendToVoice song vn _, voiceOf_appendToVoice song vn _ hv⟩

theorem c4_witness :
    ∃ s2, pushSegment ⟨120, [], []⟩ 1 100 8 (some 4) 0 = .ok s2 ∧
      s2.bpm = (⟨120, [], []⟩ : Song).bpm ∧
      voiceOf s2 1 = voiceOf ⟨120, [], []⟩ 1 ++ [(100 + ((4 : Int) - 2) * 12, 8, 0)] :=
  c4_amended ⟨120, [], []⟩ 1 100 8 4 0 (Or.inl rfl) (by decide) (by decide)
    (by decide) (by decide) (by decide)

/-- Claim C5 counterexample: the valid pair note `11` (B natural), octave `7`
is accepted by `push_segment` and stores `11 + (7 - 2) * 12 = 71`, which is
not in `0..59` — the octave range `2..7` spans six octaves, not five. -/
theorem c5_counterexample :
    pushSegment ⟨120, [], []⟩ 1 11 8 (some 7) 0 = .ok ⟨120, [(71, 8, 0)], []⟩ ∧
      ¬((71 : Int) ≤ 59) := ⟨rfl, by decide⟩

/-- Claim C5 (amended): for a pitch class `note` in `0..11` and an octave in
`2..7` (with the other arguments passing their checks), `push_segment` stores
`note + (octave - 2) * 12` in the target voice, and this value is in `0..71`
(six octaves of twelve semitones). -/
theorem c5_encoded_note (song : Song) (vn note len o instr : Int)
    (hv : vn = 1 ∨ vn = 2) (hn0 : 0 ≤ note) (hn : note ≤ 11)
    (ho2 : 2 ≤ o) (ho7 : o ≤ 7) (hl0 : 0 ≤ len) (hl : len ≤ 255) :
    ∃ s2, pushSegment song vn note len (some o) instr = .ok s2 ∧
      voiceOf s2 vn = voiceOf song vn ++ [(note + (o - 2) * 12, len, instr)] ∧
      0 ≤ note + (o - 2) * 12 ∧ note + (o - 2) * 12 ≤ 71 :=
  ⟨appendToVoice song vn (note + (o - 2) * 12, len, instr),
    pushSegment_some_ok song vn note len o instr hv (by omega) (by omega) (by omega),
    voiceOf_appendToVoice song vn _ hv, by omega, by omega⟩

theorem c5_witness :
    ∃ s2, pushSegment ⟨120, [], []⟩ 1 1 8 (some 4) 0 = .ok s2 ∧
      voiceOf s2 1 = voiceOf ⟨120, [], []⟩ 1 ++ [(1 + ((4 : Int) - 2) * 12, 8, 0)] ∧
      0 ≤ 1 + ((4 : Int) - 2) * 12 ∧ 1 + ((4 : Int) - 2) * 12 ≤ 71 :=
  c5_encoded_note ⟨120, [], []⟩ 1 1 8 4 0 (Or.inl rfl) (by decide) (by decide)
    (by decide) (by decide) (by decide) (by decide)

/-- Claim C6 counterexample: `push_segment` with `note = Rest` does NOT ignore
the octave argument: with octave `9` it fails with `InvalidArgument` instead
of succeeding. -/
theorem c6_counterexample :
    pushSegment ⟨120, [], []⟩ 1 73 8 (some 9) 0 = .error .invalidArgument := rfl

/-- Claim C6 (amended): `push_segment` with `note = Rest` stores the sentinel
value `73` unmodified and the octave does not enter the stored element; the
call succeeds when the octave is omitted or lies in `2..7`, but a supplied
octave outside `2..7` still fails with `InvalidArgument` (the octave range
check applies even to rests). -/
theorem c6_amended (song : Song) (vn len instr : Int) (octave : Option Int)
    (hv : vn = 1 ∨ vn = 2) (hl0 : 0 ≤ len) (hl : len ≤ 255)
    (ho : octave = none ∨ ∃ o, octave = some o ∧ 2 ≤ o ∧ o ≤ 7) :
    (∃ s2, pushSegment song vn 73 len octave instr = .ok s2 ∧
       s2.bpm = song.bpm ∧ voiceOf s2 vn = voiceOf song vn ++ [(73, len, instr)]) ∧
    (∀ o : Int, o < 2 ∨ 7 < o →
       pushSegment song vn 73 len (some o) instr = .error .invalidArgument) := by
  constructor
  · rcases ho with rfl | ⟨o, rfl, ho2, ho7⟩
    · exact ⟨appendToVoice song vn (73, len, instr),
        pushSegment_rest_none_ok song vn len instr hv (by omega),
        bpm_appendToVoice song vn _, voiceOf_appendToVoice song vn _ hv⟩
    · exact ⟨appendToVoice song vn (73, len, instr),
        pushSegment_rest_some_ok song vn len o instr hv (by omega) (by omega),
        bpm_appendToVoice song vn _, voiceOf_appendToVoice song vn _ hv⟩
  · intro o hoo
    exact pushSegment_octave_err song vn 73 len o instr hv (by omega) hoo

theorem c6_witness :
    (∃ s2, pushSegment ⟨120, [], []⟩ 1 73 8 none 0 = .ok s2 ∧
       s2.bpm = (⟨120, [], []⟩ : Song).bpm ∧
       voiceOf s2 1 = voiceOf ⟨120, [], []⟩ 1 ++ [(73, 8, 0)]) ∧
    (∀ o : Int, o < 2 ∨ 7 < o →
       pushSegment ⟨120, [], []⟩ 1 73 8 (some o) 0 = .error .invalidArgument) :=
  c6_amended ⟨120, [], []⟩ 1 8 0 none (Or.inl rfl) (by decide) (by decide) (Or.inl rfl)

/-- Claim C10: a successful `push_segment` call appends exactly one element at
the end of the target voice and leaves the other voice and the bpm
unchanged. -/
theorem c10_push_frame (song : Song) (vn note len : Int) (octave : Option Int)
    (instr : Int) (s2 : Song)
    (h : pushSegment song vn note len octave instr = .ok s2) :
    s2.bpm = song.bpm ∧
      ((vn = 1 ∧ (∃ e, s2.voice1 = song.voice1 ++ [e]) ∧ s2.voice2 = song.voice2) ∨
       (vn = 2 ∧ (∃ e, s2.voice2 = song.voice2 ++ [e]) ∧ s2.voice1 = song.voice1)) := by
  cases octave with
  | none =>
    simp only [pushSegment] at h
    split_ifs at h with h1 h2 h3 <;> try exact Except.noConfusion h
    all_goals
      injection h with h
      subst h
      rcases h1 with rfl | rfl <;>
        first
          | exact ⟨rfl, Or.inl ⟨rfl, ⟨_, rfl⟩, rfl⟩⟩
          | exact ⟨rfl, Or.inr ⟨rfl, ⟨_, rfl⟩, rfl⟩⟩
  | some o =>
    simp only [pushSegment] at h
    split_ifs at h with h1 h2 h3 h4 <;> try exact Except.noConfusion h
    all_goals
      injection h with h
      subst h
      rcases h1 with rfl | rfl <;>
        first
          | exact ⟨rfl, Or.inl ⟨rfl, ⟨_, rfl⟩, rfl⟩⟩
          | exact ⟨rfl, Or.inr ⟨rfl, ⟨_, rfl⟩, rfl⟩⟩

theorem c10_witness :
    (⟨120, [(73, 8, 0)], []⟩ : Song).bpm = (⟨120, [], []⟩ : Song).bpm ∧
      (((1 : Int) = 1 ∧
          (∃ e, (⟨120, [(73, 8, 0)], []⟩ : Song).voice1 =
            (⟨120, [], []⟩ : Song).voice1 ++ [e]) ∧
          (⟨120, [(73, 8, 0)], []⟩ : Song).voice2 = (⟨120, [], []⟩ : Song).voice2) ∨
       ((1 : Int) = 2 ∧
          (∃ e, (⟨120, [(73, 8, 0)], []⟩ : Song).voice2 =
            (⟨120, [], []⟩ : Song).voice2 ++ [e]) ∧
          (⟨120, [(73, 8, 0)], []⟩ : Song).voice1 = (⟨120, [], []⟩ : Song).voice1)) :=
  c10_push_frame ⟨120, [], []⟩ 1 73 8 none 0 ⟨120, [(73, 8, 0)], []⟩ rfl

theorem decodeCell_err (s : List Nat) (acc : List Elem × List Elem) (i j : Nat)
    (e : Err) (h : decodeCell s acc i j = .error e) : e = .indexError := by
  simp only [decodeCell] at h
  split_ifs at h <;> first
    | exact Except.noConfusion h
    | (injection h with h2; exact h2.symm)

theorem decodeStep_err (s : List Nat) (acc : List Elem × List Elem) (i : Nat)
    (e : Err) (h : decodeStep s acc i = .error e) : e = .indexError := by
  unfold decodeStep at h
  cases h0 : decodeCell s acc i 0 with
  | error e0 =>
    simp only [h0] at h
    injection h with h2
    subst h2
    exact decodeCell_err s acc i 0 _ h0
  | ok a1 =>
    simp only [h0] at h
    cases h1 : decodeCell s a1 i 1 with
    | error e1 =>
      simp only [h1] at h
      injection h with h2
      subst h2
      exact decodeCell_err s a1 i 1 _ h1
    | ok a2 =>
      simp only [h1] at h
      exact decodeCell_err s a2 i 2 e h

theorem decodeGo_err (s : List Nat) :
    ∀ (L : List Nat) (acc : List Elem × List Elem) (e : Err),
      decodeGo s L acc = .error e → e = .indexError := by
  intro L
  induction L with
  | nil =>
    intro acc e h
    exact Except.noConfusion h
  | cons i rest ih =>
    intro acc e h
    simp only [decodeGo] at h
    cases h0 : decodeStep s acc i with
    | error e0 =>
      simp only [h0] at h
      injection h with h2
      subst h2
      exact decodeStep_err s acc i _ h0
    | ok a =>
      simp only [h0] at h
      exact ih a e h

theorem parseHex_err (ds : List Nat) (e : Err) (h : parseHex ds = .error e) :
    e = .parseError := by
  unfold parseHex at h
  split_ifs at h
  injection h with h2
  exact h2.symm

theorem songFromBytes_ne_arg (s : List Nat) :
    songFromBytes s ≠ .error .invalidArgument := by
  intro h
  unfold songFromBytes at h
  split_ifs at h
  · injection h with h2
    exact Err.noConfusion h2
  · cases hp : parseHex (s.take 2) with
    | error e1 =>
      simp only [hp] at h
      injection h with h2
      subst h2
      exact Err.noConfusion (parseHex_err _ _ hp)
    | ok bpm =>
      simp only [hp] at h
      cases hd : decodeGo s (List.range ((s.drop 2).length / 18)) ([], []) with
      | error e2 =>
        simp only [hd] at h
        injection h with h2
        subst h2
        exact Err.noConfusion (decodeGo_err s _ _ _ hd)
      | ok vs =>
        simp only [hd] at h
        exact Except.noConfusion h

/-- Claim C7: constructing a `Song` fails with `InvalidArgument` (the
"Must provide only either bpm or byte_string argument" error) exactly when
both a tempo and a byte stream are supplied or when neither is; with exactly
one source the constructor never raises that error (the byte-string path can
only raise the format, parse or index errors). -/
theorem c7_constructor_sources (bpm? : Option Int) (bs? : Option (List Nat)) :
    mkSong bpm? bs? = .error .invalidArgument ↔ bpm?.isSome = bs?.isSome := by
  cases bpm? <;> cases bs? <;> simp [mkSong]
  exact songFromBytes_ne_arg _

theorem eraseIdx_at_append {α : Type} (pre : List α) (e : α) (post : List α) :
    (pre ++ e :: post).eraseIdx pre.length = pre ++ post := by
  induction pre with
  | nil => rfl
  | cons a pre ih => simp [List.eraseIdx, ih]

theorem pyPop_at {α : Type} (pre : List α) (e : α) (post : List α) (k : Int)
    (hk : (pre.length : Int) = k - 1) :
    pyPop (pre ++ e :: post) (k - 1) = .ok (pre ++ post) := by
  have hL : (pre ++ e :: post).length = pre.length + post.length + 1 := by
    simp
    omega
  unfold pyPop
  rw [hL]
  rw [if_pos (by omega)]
  have ht : (k - 1).toNat = pre.length := by omega
  rw [ht, eraseIdx_at_append]

theorem pyPop_out {α : Type} (l : List α) (k : Int)
    (hk : (l.length : Int) < k ∨ k < 1 - (l.length : Int)) :
    pyPop l (k - 1) = .error .indexError := by
  unfold pyPop
  rw [if_neg (by omega), if_neg (by omega)]

/-- Claim C8 counterexample: `remove_segment` with the out-of-range index `0`
on a voice of length 3 does not fail with an error — it removes the LAST
element (Python `pop(-1)` semantics), leaving the voice changed. -/
theorem c8_counterexample :
    removeSegment ⟨0, [(1, 1, 0), (2, 2, 0), (3, 3, 0)], []⟩ 1 0 =
      .ok ⟨0, [(1, 1, 0), (2, 2, 0)], []⟩ := rfl

/-- Claim C8 (amended): for a voice number in `{1, 2}`, `remove_segment`
removes the element at 1-based position `seg_index` (shifting later elements
down by one) when `1 ≤ seg_index ≤ len(voice)`; it fails — with a Python
`IndexError`, not an `OutOfRange` error — leaving the song unproduced, only
when `seg_index > len(voice)` or `seg_index < 1 - len(voice)`; indices in
`1 - len(voice) .. 0` instead remove an element counted from the end. -/
theorem c8_remove (song : Song) (vn k : Int) (hv : vn = 1 ∨ vn = 2) :
    (∀ (pre post : List Elem) (e : Elem),
        voiceOf song vn = pre ++ e :: post → (pre.length : Int) = k - 1 →
        removeSegment song vn k = .ok (setVoice song vn (pre ++ post))) ∧
    (((voiceOf song vn).length : Int) < k ∨ k < 1 - ((voiceOf song vn).length : Int) →
        removeSegment song vn k = .error .indexError) := by
  rcases hv with rfl | rfl
  · constructor
    · intro pre post e hsplit hlen
      have hv1 : song.voice1 = pre ++ e :: post := by simpa [voiceOf] using hsplit
      simp only [removeSegment]
      rw [if_pos (show (1 : Int) - 1 = 0 ∨ (1 : Int) - 1 = -2 from Or.inl (by norm_num))]
      rw [hv1, pyPop_at pre e post k hlen]
      rfl
    · intro hk
      have hk2 : (song.voice1.length : Int) < k ∨ k < 1 - (song.voice1.length : Int) := by
        simpa [voiceOf] using hk
      simp only [removeSegment]
      rw [if_pos (show (1 : Int) - 1 = 0 ∨ (1 : Int) - 1 = -2 from Or.inl (by norm_num))]
      rw [pyPop_out song.voice1 k hk2]
  · constructor
    · intro pre post e hsplit hlen
      have hv2 : song.voice2 = pre ++ e :: post := by simpa [voiceOf] using hsplit
      simp only [removeSegment]
      rw [if_neg (show ¬((2 : Int) - 1 = 0 ∨ (2 : Int) - 1 = -2) from by norm_num)]
      rw [if_pos (show (2 : Int) - 1 = 1 ∨ (2 : Int) - 1 = -1 from Or.inl (by norm_num))]
      rw [hv2, pyPop_at pre e post k hlen]
      rfl
    · intro hk
      have hk2 : (song.voice2.length : Int) < k ∨ k < 1 - (song.voice2.length : Int) := by
        simpa [voiceOf] using hk
      simp only [removeSegment]
      rw [if_neg (show ¬((2 : Int) - 1 = 0 ∨ (2 : Int) - 1 = -2) from by norm_num)]
      rw [if_pos (show (2 : Int) - 1 = 1 ∨ (2 : Int) - 1 = -1 from Or.inl (by norm_num))]
      rw [pyPop_out song.voice2 k hk2]

theorem c8_witness :
    removeSegment ⟨0, [(1, 1, 0), (2, 2, 0), (3, 3, 0)], []⟩ 1 1 =
      .ok (setVoice ⟨0, [(1, 1, 0), (2, 2, 0), (3, 3, 0)], []⟩ 1
        ([] ++ [(2, 2, 0), (3, 3, 0)])) :=
  (c8_remove ⟨0, [(1, 1, 0), (2, 2, 0), (3, 3, 0)], []⟩ 1 1 (Or.inl rfl)).1
    [] [(2, 2, 0), (3, 3, 0)] (1, 1, 0) rfl (by decide)

theorem insertAt_length_eq {α : Type} (x : α) (l : List α) :
    insertAt l.length x l = l ++ [x] := by
  induction l with
  | nil => rfl
  | cons a l ih => simp [insertAt, List.length_cons, ih]

theorem pyInsertIdx_of_ge {α : Type} (l : List α) (i : Int) (x : α)
    (h : (l.length : Int) ≤ i) : pyInsertIdx l i x = l ++ [x] := by
  unfold pyInsertIdx
  rw [if_neg (by omega)]
  have hm : min i.toNat l.length = l.length := by omega
  rw [hm, insertAt_length_eq]

/-- Claim C9: when `seg_index` is at least the current length of the target
voice, `insert_segment` behaves exactly as `push_segment` with the same
arguments: identical validation, and insertion clamps to an append. -/
theorem c9_insert_as_push (song : Song) (segNum vn note len : Int)
    (octave : Option Int) (instr : Int)
    (h : ((voiceOf song vn).length : Int) ≤ segNum) :
    insertSegment song segNum vn note len octave instr =
      pushSegment song vn note len octave instr := by
  have key : ∀ e : Elem, insertToVoice song vn segNum e = appendToVoice song vn e := by
    intro e
    unfold insertToVoice appendToVoice
    by_cases hv : vn = 1
    · rw [if_pos hv, if_pos hv]
      have h1 : (song.voice1.length : Int) ≤ segNum := by
        simpa [voiceOf, hv] using h
      rw [pyInsertIdx_of_ge song.voice1 segNum e h1]
    · rw [if_neg hv, if_neg hv]
      have h1 : (song.voice2.length : Int) ≤ segNum := by
        simpa [voiceOf, hv] using h
      rw [pyInsertIdx_of_ge song.voice2 segNum e h1]
  cases octave with
  | none =>
    simp only [insertSegment, pushSegment]
    split_ifs <;> simp [key]
  | some o =>
    simp only [insertSegment, pushSegment]
    split_ifs <;> simp [key]

theorem c9_witness :
    insertSegment ⟨120, [(5, 5, 5)], []⟩ 7 1 3 8 (some 4) 2 =
      pushSegment ⟨120, [(5, 5, 5)], []⟩ 1 3 8 (some 4) 2 :=
  c9_insert_as_push ⟨120, [(5, 5, 5)], []⟩ 7 1 3 8 (some 4) 2 (by decide)

/-- Claim C1 (code bug): decoding the byte stream produced by `hex_dump` does
NOT reconstruct the song.  The spec §8 example song — `Song(bpm = 120)` with
one nonzero-duration element pushed to voice 1 — encodes to the 14-hex-digit
stream `78 190800 000000`, and constructing a `Song` from it fails with the
`InvalidFormat` length error: the decoder demands a multiple of 18 hex digits
after the bpm byte while the encoder emits 12 per segment. -/
theorem c1_roundtrip_fails :
    demoSong = .ok ⟨120, [(25, 8, 0)], []⟩ ∧
      roundTrip ⟨120, [(25, 8, 0)], []⟩ = .error .invalidFormat := ⟨rfl, rfl⟩

/-- Claim C2 (code bug): a stream of one bpm byte followed by exactly one
6-byte record of the note/duration/instrument revision (`64 010800000000`,
12 hex digits after the bpm) is a multiple of the claimed record width, yet
constructing a `Song` from it fails with the `InvalidFormat` error: the
length check divides by `SEGMENT_STR_LEN = 18` hex digits (9 bytes), not by
the 12 hex digits (6 bytes) the encoder writes per segment. -/
theorem c2_length_check :
    songFromBytes [6, 4, 0, 1, 0, 8, 0, 0, 0, 0, 0, 0, 0, 0] =
      .error .invalidFormat := rfl

/-- Claim C3 (code bug): on a stream passing the length check (bpm byte plus
9 bytes `01 02 03 04 05 06 07 08 09`), the decoder does not read two voices'
3-byte fields: it iterates `j` over `range(NUM_ELEMENTS) = 0, 1, 2` at a
hex-digit stride of 4, reading overlapping 2-, 3- and 4-digit fields, and on
the third iteration appends to the nonexistent `self._voices[2]`, crashing
with `IndexError` instead of producing a song. -/
theorem c3_decode_crash :
    songFromBytes [7, 8, 0, 1, 0, 2, 0, 3, 0, 4, 0, 5, 0, 6, 0, 7, 0, 8, 0, 9] =
      .error .indexError := rfl
